import Mathlib

/-
Verification of the warehouse-loading and dashboard logic of the
etl-for-dumdums repository.

The Python modules are shallowly embedded as executable Lean definitions:

* src/lib/bigquery.py   : get_client, ensure_dataset_exists, load_table,
                          merge_table (temporary-table-and-MERGE upsert).
  The warehouse itself (BigQuery) is modelled as a `WarehouseState`, a map
  from fully qualified table references to lists of rows; a row dictionary
  is an association list from column name to `Value`.  The side effects a
  function performs against the warehouse API are recorded in an `Op`
  trace.  Points where the real system can fail (the MERGE query, the
  temp-table cleanup) are driven by explicit boolean failure injectors.
  Logging via logger.info/debug is not modelled, except that the
  logger.warning call in the cleanup handler of merge_table is recorded as
  an `Op.logWarn`, because the spec talks about it.
* src/lib/source.py     : Source, run_sync.
* src/app.py            : the navigation built from DEPLOYMENT_MODE.
* src/Summary.py and src/pages/*.py : the data-load error handling of the
  dashboard pages.
* src/sources/hacker_news.py : analyze_sentiment_batch and
  HNCommentsSource.transform.  The Cloudflare sentiment API is modelled as
  an oracle giving, per text index, the outcome of the HTTP call.
-/

namespace Etl

/-- A BigQuery cell value as it appears in the JSON rows handled by the
sync scripts.  The constructor `null` covers Python `None` and missing
dictionary keys (both load as SQL NULL). -/
inductive Value where
  | null : Value
  | int : Int → Value
  | str : String → Value
  | num : ℚ → Value
  | bool : Bool → Value
deriving DecidableEq

/-- A row dictionary (Python `dict[str, Any]`) as an association list from
column name to value, in insertion order. -/
abbrev Row := List (String × Value)

/-- Dictionary lookup with NULL default: the value column `c` of row `r`
receives when the row is loaded against a schema (a missing key loads as
NULL). -/
def getCol : Row → String → Value
  | [], _ => Value.null
  | p :: ps, c => if p.1 == c then p.2 else getCol ps c

/-- Python dictionary assignment `r[c] = v`: overwrite the value in place
if the key exists, otherwise append the new key at the end. -/
def setCol (r : Row) (c : String) (v : Value) : Row :=
  if r.any (fun p => p.1 == c) then
    r.map (fun p => if p.1 == c then (p.1, v) else p)
  else
    r ++ [(c, v)]

/-- The projection of a row dictionary onto the table schema: what
`load_table_from_json` stores, one value per schema column.  Only the
field names of the `bigquery.SchemaField` list matter to the merge logic,
so a schema is the list of its column names. -/
def normalizeRow (schema : List String) (r : Row) : Row :=
  schema.map (fun c => (c, getCol r c))

/-- Replace the value bound to `ref`, or append the binding if absent. -/
def upsertTable : List (String × List Row) → String → List Row → List (String × List Row)
  | [], ref, rows => [(ref, rows)]
  | p :: ps, ref, rows =>
    if p.1 == ref then (ref, rows) :: ps else p :: upsertTable ps ref rows

/-- The state of the warehouse: the datasets that exist and, for every
existing table, its fully qualified reference and current rows. -/
structure WarehouseState where
  datasets : List String
  tables : List (String × List Row)
deriving DecidableEq

/-- Lookup of a table binding in the table list. -/
def lookupTable : List (String × List Row) → String → Option (List Row)
  | [], _ => none
  | p :: ps, ref => if p.1 == ref then some p.2 else lookupTable ps ref

/-- The current rows of table `ref`, or `none` when the table does not
exist (the `NotFound` case of `client.get_table`). -/
def getTable (st : WarehouseState) (ref : String) : Option (List Row) :=
  lookupTable st.tables ref

/-- Create table `ref` with the given rows, replacing it if it exists. -/
def setTable (st : WarehouseState) (ref : String) (rows : List Row) : WarehouseState :=
  { st with tables := upsertTable st.tables ref rows }

/-- Delete table `ref` (the effect of `client.delete_table`). -/
def dropTable (st : WarehouseState) (ref : String) : WarehouseState :=
  { st with tables := st.tables.filter (fun p => !(p.1 == ref)) }

/-- Embedding of `ensure_dataset_exists` (src/lib/bigquery.py lines 53-80):
get the dataset, creating it when the lookup fails. -/
def ensure_dataset_exists (st : WarehouseState) (datasetId : String) : WarehouseState :=
  if st.datasets.contains datasetId then st
  else { st with datasets := datasetId :: st.datasets }

/-- One warehouse API call performed by the loading helpers, as recorded in
the effect trace. -/
inductive Op where
  | ensureDataset : String → Op
  | loadJson : String → List Row → Op
  | mergeStmt : String → String → Op
  | deleteTable : String → Op
  | logWarn : String → Op
deriving DecidableEq

/-- Result of one of the loading helpers: the new warehouse state, the
trace of API calls that were made, and the exception propagated to the
caller, if any. -/
structure BQOutcome where
  state : WarehouseState
  ops : List Op
  err : Option String
deriving DecidableEq

/-- The three values of the `write_disposition` argument of load_table. -/
inductive WriteDisposition where
  | truncate : WriteDisposition
  | append : WriteDisposition
  | empty : WriteDisposition
deriving DecidableEq

/-- The fully qualified table reference `f"{project_id}.{dataset_id}.{table_id}"`. -/
def tableRef (projectId datasetId tableId : String) : String :=
  projectId ++ "." ++ datasetId ++ "." ++ tableId

/-- Embedding of `load_table` (src/lib/bigquery.py lines 83-125): ensure
the dataset exists, then run a load job of `rows` against `schema` with
the requested write disposition.  WRITE_TRUNCATE replaces the table
contents, WRITE_APPEND appends, WRITE_EMPTY fails when the table already
holds data. -/
def load_table (projectId : String) (st : WarehouseState) (tableId : String)
    (rows : List Row) (schema : List String) (datasetId : String)
    (wd : WriteDisposition) : BQOutcome :=
  let ref := tableRef projectId datasetId tableId
  let st1 := ensure_dataset_exists st datasetId
  let newRows := rows.map (normalizeRow schema)
  let ops := [Op.ensureDataset datasetId, Op.loadJson ref rows]
  match wd with
  | WriteDisposition.truncate => ⟨setTable st1 ref newRows, ops, none⟩
  | WriteDisposition.append =>
    ⟨setTable st1 ref ((getTable st1 ref).getD [] ++ newRows), ops, none⟩
  | WriteDisposition.empty =>
    match getTable st1 ref with
    | some (_ :: _) => ⟨st1, ops, some "table already contains data"⟩
    | _ => ⟨setTable st1 ref newRows, ops, none⟩

/-- The WHEN MATCHED branch of the MERGE statement built by merge_table:
a target row that matches a source row on the primary key gets every
non-key column overwritten with the source value (`UPDATE SET
T.c = S.c` for each column `c` other than the primary key); an unmatched
target row is left as it is.  BigQuery raises when one target row matches
several source rows; the theorems below assume the source keys are
distinct, where taking the first match agrees with the SQL semantics. -/
def mergeUpdate (schema : List String) (pk : String) (source : List Row) (t : Row) : Row :=
  match source.find? (fun s => getCol s pk == getCol t pk) with
  | some s => schema.map (fun c => (c, if c == pk then getCol t c else getCol s c))
  | none => t

/-- The WHEN NOT MATCHED branch of the MERGE statement: an unmatched
source row is inserted with the full column list (`INSERT (cols) VALUES
(S.cols)`). -/
def mergeInsertRow (schema : List String) (s : Row) : Row :=
  schema.map (fun c => (c, getCol s c))

/-- The result set of the MERGE statement issued by merge_table
(src/lib/bigquery.py lines 189-198): updated target rows followed by the
inserted source rows whose primary key matches no target row. -/
def mergeRows (schema : List String) (pk : String) (target source : List Row) : List Row :=
  target.map (mergeUpdate schema pk source) ++
    ((source.filter (fun s => !(target.any (fun t => getCol t pk == getCol s pk)))).map
      (mergeInsertRow schema))

/-- Failure injection for merge_table: whether the MERGE query raises
(`query_job.result()`), and whether the temp-table cleanup raises
(`client.delete_table`). -/
structure MergeEnv where
  mergeFails : Bool
  cleanupFails : Bool
deriving DecidableEq

/-- Embedding of `merge_table` (src/lib/bigquery.py lines 128-210).

Empty input returns immediately.  Otherwise the dataset is ensured and the
target table looked up; when it does not exist the call degrades to
`load_table` with WRITE_TRUNCATE.  When it exists, the rows are staged
into a temporary table named `f"{table_id}_temp_{uuid}"` (the uuid hex
prefix is the `tempSuffix` argument), the MERGE statement is executed,
and in a `finally` block the temporary table is deleted; a cleanup
failure is logged (recorded as `Op.logWarn`) and swallowed, while a MERGE
failure propagates as the `err` field after the cleanup attempt. -/
def merge_table (projectId : String) (st : WarehouseState) (tableId : String)
    (rows : List Row) (schema : List String) (primaryKey : String)
    (datasetId : String) (tempSuffix : String) (env : MergeEnv) : BQOutcome :=
  if rows.isEmpty then ⟨st, [], none⟩
  else
    let ref := tableRef projectId datasetId tableId
    let tempTableId := tableId ++ "_temp_" ++ tempSuffix
    let tempRef := tableRef projectId datasetId tempTableId
    let st1 := ensure_dataset_exists st datasetId
    match getTable st1 ref with
    | none =>
      let lo := load_table projectId st1 tableId rows schema datasetId WriteDisposition.truncate
      ⟨lo.state, Op.ensureDataset datasetId :: lo.ops, lo.err⟩
    | some _ =>
      let st2 := setTable st1 tempRef (rows.map (normalizeRow schema))
      let stagedOps := [Op.ensureDataset datasetId, Op.loadJson tempRef rows]
      if env.mergeFails then
        if env.cleanupFails then
          ⟨st2,
            stagedOps ++ [Op.mergeStmt ref tempRef,
              Op.logWarn ("Failed to clean up temp table " ++ tempRef)],
            some "merge query failed"⟩
        else
          ⟨dropTable st2 tempRef,
            stagedOps ++ [Op.mergeStmt ref tempRef, Op.deleteTable tempRef],
            some "merge query failed"⟩
      else
        let merged := setTable st2 ref
          (mergeRows schema primaryKey ((getTable st2 ref).getD [])
            ((getTable st2 tempRef).getD []))
        if env.cleanupFails then
          ⟨merged,
            stagedOps ++ [Op.mergeStmt ref tempRef,
              Op.logWarn ("Failed to clean up temp table " ++ tempRef)],
            none⟩
        else
          ⟨dropTable merged tempRef,
            stagedOps ++ [Op.mergeStmt ref tempRef, Op.deleteTable tempRef],
            none⟩

/-- A concrete `Source` subclass (src/lib/source.py lines 18-42): the
target table, primary key and schema it declares, the raw records its
`fetch()` returns in this run, and its `transform` function. -/
structure SourceModel where
  table_id : String
  primary_key : String
  schema : List String
  fetchResult : List Row
  transform : List Row → List Row

/-- One step taken by the sync driver, for the call trace of run_sync. -/
inductive DriverCall where
  | fetch : DriverCall
  | transform : List Row → DriverCall
  | loadTable : List Row → DriverCall
  | mergeTable : List Row → DriverCall
deriving DecidableEq

/-- Detects the driver steps that load data into the warehouse. -/
def isLoadCall : DriverCall → Bool
  | DriverCall.loadTable _ => true
  | DriverCall.mergeTable _ => true
  | _ => false

/-- Holds of an operation that neither stages a temporary table nor issues
a MERGE nor deletes anything: any load it performs goes straight to the
given table reference. -/
def opTouchesOnly (ref : String) (op : Op) : Bool :=
  match op with
  | Op.loadJson tgtRef _ => tgtRef == ref
  | Op.mergeStmt _ _ => false
  | Op.deleteTable _ => false
  | _ => true

/-- Result of a run_sync call: warehouse outcome plus the trace of driver
steps that were taken. -/
structure SyncOutcome where
  state : WarehouseState
  ops : List Op
  err : Option String
  calls : List DriverCall
deriving DecidableEq

/-- Embedding of `run_sync` (src/lib/source.py lines 45-73): fetch, return
early when nothing came back, otherwise transform and either full-replace
load (WRITE_TRUNCATE into the default dataset) or incremental merge on the
source's table, schema and primary key.  Client construction
(`bq.get_client()`) is modelled separately by `get_client` below. -/
def run_sync (projectId : String) (st : WarehouseState) (src : SourceModel)
    (full_refresh : Bool) (tempSuffix : String) (env : MergeEnv) : SyncOutcome :=
  if src.fetchResult.isEmpty then ⟨st, [], none, [DriverCall.fetch]⟩
  else
    let rows := src.transform src.fetchResult
    if full_refresh then
      let lo := load_table projectId st src.table_id rows src.schema "raw_data"
        WriteDisposition.truncate
      ⟨lo.state, lo.ops, lo.err,
        [DriverCall.fetch, DriverCall.transform src.fetchResult, DriverCall.loadTable rows]⟩
    else
      let mo := merge_table projectId st src.table_id rows src.schema src.primary_key
        "raw_data" tempSuffix env
      ⟨mo.state, mo.ops, mo.err,
        [DriverCall.fetch, DriverCall.transform src.fetchResult, DriverCall.mergeTable rows]⟩

/-- One element rendered onto a dashboard page.  Only what the claims talk
about is distinguished: inline warnings/errors, section headers, metric rows
and the remaining page body. -/
inductive Widget where
  | title : String → Widget
  | header : String → Widget
  | metricsRow : String → Widget
  | warning : String → Widget
  | errorBox : String → Widget
  | infoBox : String → Widget
  | divider : Widget
  | body : String → Widget
deriving DecidableEq

/-- A data loader from src/data.py as seen by a page: either it returned a
dataframe (whose contents are irrelevant to the error-handling claims) or
it raised with a message. -/
abbrev Loader := Except String Unit

/-- One data-source section of src/Summary.py: a markdown header, then a
try block computing three metrics from one loader, with
`except Exception as e: st.warning(f"Could not load {name} data: {e}")`. -/
def summarySection (name : String) (loaded : Loader) : List Widget :=
  Widget.header name ::
    match loaded with
    | Except.ok _ => [Widget.metricsRow name]
    | Except.error e => [Widget.warning ("Could not load " ++ name ++ " data: " ++ e)]

/-- The Stock Prices section of src/Summary.py (lines 182-195): its try
block calls two loaders in order, so the first failure produces the
warning. -/
def summarySectionStocks (stocks sectors : Loader) : List Widget :=
  Widget.header "Stock Prices" ::
    match stocks with
    | Except.error e => [Widget.warning ("Could not load Stock Prices data: " ++ e)]
    | Except.ok _ =>
      match sectors with
      | Except.error e => [Widget.warning ("Could not load Stock Prices data: " ++ e)]
      | Except.ok _ => [Widget.metricsRow "Stock Prices"]

/-- Embedding of src/Summary.py: the Linear and GitHub sections render only
outside public mode; every section wraps its loader in try/except, so the
page never lets a data-load exception escape and later sections render
regardless of earlier failures. -/
def summaryPage (isPublic : Bool)
    (linear github oura hn hnSentiment trends recalls liquor events stocks sectors : Loader) :
    Except String (List Widget) :=
  Except.ok
    ([Widget.title "Summary", Widget.header "Data Sources"] ++
      (if isPublic then []
       else summarySection "Linear" linear ++ [Widget.divider] ++
         summarySection "GitHub" github ++ [Widget.divider]) ++
      summarySection "Oura" oura ++ [Widget.divider] ++
      summarySection "Hacker News" hn ++ [Widget.divider] ++
      summarySection "HN Sentiment" hnSentiment ++ [Widget.divider] ++
      summarySection "Google Trends" trends ++ [Widget.divider] ++
      summarySection "FDA Food Recalls" recalls ++ [Widget.divider] ++
      summarySection "Iowa Liquor Sales" liquor ++ [Widget.divider] ++
      summarySection "FDA Food Events" events ++ [Widget.divider] ++
      summarySectionStocks stocks sectors)

/-- Embedding of src/pages/1_Linear_Issues.py: `df = load_issues()` is
called at module top level (line 17) with no try/except, so a raising
loader propagates out of the page script.  An `Except.error` result is an
exception escaping the page. -/
def linearIssuesPage (issues : Loader) : Except String (List Widget) :=
  match issues with
  | Except.error e => Except.error e
  | Except.ok _ =>
    Except.ok [Widget.title "Linear Issues", Widget.body "filters, charts and tables"]

/-- Embedding of src/pages/4_Hacker_News.py: three loaders are called at
top level (lines 17-19) with no try/except; the first failure escapes. -/
def hackerNewsPage (weekly domains keywords : Loader) : Except String (List Widget) :=
  match weekly with
  | Except.error e => Except.error e
  | Except.ok _ =>
    match domains with
    | Except.error e => Except.error e
    | Except.ok _ =>
      match keywords with
      | Except.error e => Except.error e
      | Except.ok _ =>
        Except.ok [Widget.title "Hacker News Trends", Widget.body "charts"]

/-- Embedding of src/pages/2_GitHub_PRs.py (lines 19-25): the two loaders
run inside one try block; on failure the page shows st.error and st.info
and stops, so no exception escapes. -/
def githubPRsPage (prs reviewers : Loader) : Except String (List Widget) :=
  let top := [Widget.title "GitHub Pull Requests"]
  match prs with
  | Except.error e =>
    Except.ok (top ++ [Widget.errorBox ("Could not load GitHub data: " ++ e),
      Widget.infoBox "sync instructions"])
  | Except.ok _ =>
    match reviewers with
    | Except.error e =>
      Except.ok (top ++ [Widget.errorBox ("Could not load GitHub data: " ++ e),
        Widget.infoBox "sync instructions"])
    | Except.ok _ => Except.ok (top ++ [Widget.body "filters and charts"])

/-- Embedding of src/pages/6_Google_Trends.py (lines 17-27): the loader
runs inside a try block; on failure the page shows st.error and st.info
and stops. -/
def googleTrendsPage (trends : Loader) : Except String (List Widget) :=
  let top := [Widget.title "Google Trends"]
  match trends with
  | Except.error e =>
    Except.ok (top ++ [Widget.errorBox ("Could not load Google Trends data: " ++ e),
      Widget.infoBox "sync instructions"])
  | Except.ok _ => Except.ok (top ++ [Widget.body "filters and charts"])

/-- Embedding of src/pages/10_Stock_Prices.py (lines 18-28): two loaders in
one try block; on failure st.error, st.info and stop. -/
def stockPricesPage (stocks sectors : Loader) : Except String (List Widget) :=
  let top := [Widget.title "Stock Prices"]
  match stocks with
  | Except.error e =>
    Except.ok (top ++ [Widget.errorBox ("Could not load stock data: " ++ e),
      Widget.infoBox "sync instructions"])
  | Except.ok _ =>
    match sectors with
    | Except.error e =>
      Except.ok (top ++ [Widget.errorBox ("Could not load stock data: " ++ e),
        Widget.infoBox "sync instructions"])
    | Except.ok _ => Except.ok (top ++ [Widget.body "filters and charts"])

/-- Embedding of src/pages/5_HN_Sentiment.py: `load_hn_keyword_sentiment()`
is called at top level (line 37) with no try/except. -/
def hnSentimentPage (sentiment : Loader) : Except String (List Widget) :=
  match sentiment with
  | Except.error e => Except.error e
  | Except.ok _ => Except.ok [Widget.title "HN Sentiment", Widget.body "charts"]

/-- Embedding of src/pages/7_FDA_Food_Recalls.py: three loaders at top
level (lines 37-39) with no try/except. -/
def fdaRecallsPage (byState byTopic withTopics : Loader) : Except String (List Widget) :=
  match byState with
  | Except.error e => Except.error e
  | Except.ok _ =>
    match byTopic with
    | Except.error e => Except.error e
    | Except.ok _ =>
      match withTopics with
      | Except.error e => Except.error e
      | Except.ok _ => Except.ok [Widget.title "FDA Food Recalls", Widget.body "charts"]

/-- Embedding of src/pages/8_Iowa_Liquor_Sales.py: three loaders at top
level (lines 27-29) with no try/except. -/
def iowaLiquorPage (monthly county vendors : Loader) : Except String (List Widget) :=
  match monthly with
  | Except.error e => Except.error e
  | Except.ok _ =>
    match county with
    | Except.error e => Except.error e
    | Except.ok _ =>
      match vendors with
      | Except.error e => Except.error e
      | Except.ok _ => Except.ok [Widget.title "Iowa Liquor Sales", Widget.body "charts"]

/-- Embedding of src/pages/9_FDA_Food_Events.py: four loaders at top level
(lines 41-44) with no try/except. -/
def fdaEventsPage (byReaction byProduct monthly monthlyIndustry : Loader) :
    Except String (List Widget) :=
  match byReaction with
  | Except.error e => Except.error e
  | Except.ok _ =>
    match byProduct with
    | Except.error e => Except.error e
    | Except.ok _ =>
      match monthly with
      | Except.error e => Except.error e
      | Except.ok _ =>
        match monthlyIndustry with
        | Except.error e => Except.error e
        | Except.ok _ => Except.ok [Widget.title "FDA Food Events", Widget.body "charts"]

/-- Embedding of src/pages/3_Oura_Wellness.py: after the password gate,
`load_oura_daily()` is called at top level (line 132) with no try/except
(the gate itself is not a data load and is not modelled). -/
def ouraWellnessPage (oura : Loader) : Except String (List Widget) :=
  match oura with
  | Except.error e => Except.error e
  | Except.ok _ => Except.ok [Widget.title "Oura Wellness", Widget.body "charts"]

/-- The process environment (os.environ), as an association list. -/
abbrev EnvMap := List (String × String)

/-- Lookup of `os.environ.get(k)`. -/
def envGet (env : EnvMap) (k : String) : Option String :=
  (env.find? (fun p => p.1 == k)).map (fun p => p.2)

/-- Python truthiness test `if not value:` on an environment lookup:
both an unset variable and an empty string are falsy. -/
def envFalsy (v : Option String) : Bool :=
  match v with
  | none => true
  | some s => s == ""

/-- Embedding of `get_client` (src/lib/bigquery.py lines 25-50): raise
ValueError when GCP_SA_KEY or GCP_PROJECT_ID is unset, otherwise build the
client (the base64/JSON decoding and SDK construction are not modelled). -/
def get_client (env : EnvMap) : Except String Unit :=
  if envFalsy (envGet env "GCP_SA_KEY") then
    Except.error "GCP_SA_KEY environment variable is not set"
  else if envFalsy (envGet env "GCP_PROJECT_ID") then
    Except.error "GCP_PROJECT_ID environment variable is not set"
  else Except.ok ()

/-- Page titles of the PUBLIC_PAGES list in src/app.py (lines 27-37). -/
def publicPageTitles : List String :=
  ["Oura Wellness", "Oura Investigation", "Hacker News", "HN Sentiment", "Google Trends",
   "FDA Food Recalls", "Iowa Liquor Sales", "FDA Food Events", "Stock Prices"]

/-- Page titles of the PRIVATE_PAGES list in src/app.py (lines 48-51). -/
def privatePageTitles : List String :=
  ["Linear Issues", "GitHub PRs"]

/-- The DEPLOYMENT_MODE of src/app.py line 20:
`os.environ.get("DEPLOYMENT_MODE", "local")`. -/
def deploymentMode (env : EnvMap) : String :=
  (envGet env "DEPLOYMENT_MODE").getD "local"

/-- Embedding of the navigation dictionary of src/app.py (lines 19-56):
in public mode only Overview (Summary) and the public pages; otherwise
additionally the Work group with the two private pages. -/
def nav_config (env : EnvMap) : List (String × List String) :=
  if deploymentMode env == "public" then
    [("Overview", ["Summary"]), ("Public Data", publicPageTitles)]
  else
    [("Overview", ["Summary"]), ("Work", privatePageTitles),
     ("Public Data", publicPageTitles)]

/-- All page titles reachable from the navigation, in order. -/
def navPages (env : EnvMap) : List String :=
  ((nav_config env).map (fun g => g.2)).flatten

/-- One sentiment result dictionary of analyze_sentiment_batch. -/
structure SentimentRow where
  score : ℚ
  label : String
  category : String
deriving DecidableEq

/-- The outcome of one Cloudflare Workers AI call in
analyze_sentiment_batch: the request raised (or returned a non-2xx
status), the body had success false or an empty result, or it produced a
label and score.  The dictionary defaults of the source
(`result.get("label", "NEUTRAL")`, `result.get("score", 0.5)`) are folded
into the `ok` payload. -/
inductive ApiOutcome where
  | exn : ApiOutcome
  | notSuccess : ApiOutcome
  | ok : String → ℚ → ApiOutcome
deriving DecidableEq

/-- Python `round(x, 4)` (src/sources/hacker_news.py line 199), modelled by
rounding `x * 10^4` to the nearest integer over ℚ.  Python rounds exact
ties half-to-even while Mathlib's round is half-up; no theorem below
depends on tie behaviour and no concrete input used hits a tie. -/
def roundTo4 (q : ℚ) : ℚ :=
  ((round (q * 10000) : ℤ) : ℚ) / 10000

/-- The intermediate `sentiment_score` variable of analyze_sentiment_batch
before rounding: 0 for skipped or failed texts, the API confidence signed
by the POSITIVE/NEGATIVE label otherwise. -/
def rawScore (text : String) (o : ApiOutcome) : ℚ :=
  if text.length < 10 then 0
  else
    match o with
    | ApiOutcome.exn => 0
    | ApiOutcome.notSuccess => 0
    | ApiOutcome.ok label score => if label == "POSITIVE" then score else -score

/-- The handling of one text inside the loop of analyze_sentiment_batch
(src/sources/hacker_news.py lines 159-215).  `not text or len(text) < 10`
reduces to the length test since an empty string has length 0; the
truncation of long texts to 1000 characters only affects what is sent to
the API, which the oracle already abstracts. -/
def analyzeOne (text : String) (o : ApiOutcome) : SentimentRow :=
  if text.length < 10 then ⟨0, "NEUTRAL", "neutral"⟩
  else
    match o with
    | ApiOutcome.exn => ⟨0, "ERROR", "neutral"⟩
    | ApiOutcome.notSuccess => ⟨0, "UNKNOWN", "neutral"⟩
    | ApiOutcome.ok label score =>
      let s := if label == "POSITIVE" then score else -score
      let category :=
        if s > 1/4 then "positive" else if s < -1/4 then "negative" else "neutral"
      ⟨roundTo4 s, label, category⟩

/-- The per-text loop of analyze_sentiment_batch carrying the position in
the input list; the batching by `batch_size` with its sleep between
batches flattens into this sequential traversal. -/
def analyzeBatchAux (oracle : Nat → ApiOutcome) : Nat → List String → List SentimentRow
  | _, [] => []
  | i, t :: ts => analyzeOne t (oracle i) :: analyzeBatchAux oracle (i + 1) ts

/-- Embedding of `analyze_sentiment_batch` (src/sources/hacker_news.py
lines 128-224): one sentiment result per input text, in order, with the
API response of the i-th text given by `oracle i`. -/
def analyze_sentiment_batch (texts : List String) (oracle : Nat → ApiOutcome) :
    List SentimentRow :=
  analyzeBatchAux oracle 0 texts

/-- The mutation `row["sentiment_score"] = ...` and friends applied to one
comment row (src/sources/hacker_news.py lines 334-337). -/
def applySentiment (r : Row) (s : SentimentRow) : Row :=
  setCol (setCol (setCol r "sentiment_score" (Value.num s.score))
    "sentiment_label" (Value.str s.label)) "sentiment_category" (Value.str s.category)

/-- The `for row, sentiment in zip(raw_data, sentiments)` loop: rows beyond
the shorter list are returned unmodified. -/
def mergeSentiments (raw : List Row) (sents : List SentimentRow) : List Row :=
  List.zipWith applySentiment raw sents ++ raw.drop sents.length

/-- The null-sentiment fallback of transform: the three sentiment fields
set to None on every row. -/
def nullSentiment (r : Row) : Row :=
  setCol (setCol (setCol r "sentiment_score" Value.null)
    "sentiment_label" Value.null) "sentiment_category" Value.null

/-- The string payload of a text column, as `row.get("text", "")` sees it. -/
def valueText (v : Value) : String :=
  match v with
  | Value.str s => s
  | _ => ""

/-- Embedding of `HNCommentsSource.transform` (src/sources/hacker_news.py
lines 309-340).  When CLOUDFLARE_ACCOUNT_ID or CLOUDFLARE_WORKERS_AI_TOKEN
is unset, a warning is logged, sentiment analysis is skipped and the rows
come back with null sentiment fields — no exception is raised.  Otherwise
every comment text is cleaned (`clean_html`, a pure regex scrub passed in
as `cleaner` and irrelevant to the claims) and the batch results merged
in.  An `Except.error` result would model an exception escaping
transform; both branches return `Except.ok`. -/
def hnCommentsTransform (env : EnvMap) (raw : List Row)
    (cleaner : String → String) (oracle : Nat → ApiOutcome) : Except String (List Row) :=
  if envFalsy (envGet env "CLOUDFLARE_ACCOUNT_ID") ||
      envFalsy (envGet env "CLOUDFLARE_WORKERS_AI_TOKEN") then
    Except.ok (raw.map nullSentiment)
  else
    let cleaned := raw.map (fun r => cleaner (valueText (getCol r "text")))
    Except.ok (mergeSentiments raw (analyze_sentiment_batch cleaned oracle))

/-! ### Warehouse state lemmas -/

lemma lookupTable_upsert_self (ts : List (String × List Row)) (ref : String)
    (rows : List Row) :
    lookupTable (upsertTable ts ref rows) ref = some rows := by
  induction ts with
  | nil => simp [upsertTable, lookupTable]
  | cons p ps ih =>
    by_cases h : p.1 = ref
    · simp [upsertTable, lookupTable, h]
    · simp [upsertTable, lookupTable, h, ih]

lemma lookupTable_upsert_ne (ts : List (String × List Row)) (ref ref' : String)
    (rows : List Row) (h : ref' ≠ ref) :
    lookupTable (upsertTable ts ref rows) ref' = lookupTable ts ref' := by
  have hrr : ¬ (ref = ref') := fun hc => h hc.symm
  induction ts with
  | nil => simp [upsertTable, lookupTable, hrr]
  | cons p ps ih =>
    by_cases hp : p.1 = ref
    · have hpr' : ¬ (p.1 = ref') := by rw [hp]; exact hrr
      simp [upsertTable, lookupTable, hp, hrr, hpr']
    · simp [upsertTable, lookupTable, hp, ih]

lemma getTable_setTable_self (st : WarehouseState) (ref : String) (rows : List Row) :
    getTable (setTable st ref rows) ref = some rows :=
  lookupTable_upsert_self st.tables ref rows

lemma getTable_setTable_ne (st : WarehouseState) (ref ref' : String) (rows : List Row)
    (h : ref' ≠ ref) :
    getTable (setTable st ref rows) ref' = getTable st ref' :=
  lookupTable_upsert_ne st.tables ref ref' rows h

lemma lookupTable_filter_out (ts : List (String × List Row)) (ref : String) :
    lookupTable (ts.filter (fun p => !(p.1 == ref))) ref = none := by
  induction ts with
  | nil => simp [lookupTable]
  | cons p ps ih =>
    by_cases h : p.1 = ref
    · simp [List.filter_cons, h, ih]
    · simp [List.filter_cons, h, lookupTable, ih]

lemma getTable_dropTable_self (st : WarehouseState) (ref : String) :
    getTable (dropTable st ref) ref = none :=
  lookupTable_filter_out st.tables ref

lemma lookupTable_filter_ne (ts : List (String × List Row)) (ref ref' : String)
    (h : ref' ≠ ref) :
    lookupTable (ts.filter (fun p => !(p.1 == ref))) ref' = lookupTable ts ref' := by
  induction ts with
  | nil => simp
  | cons p ps ih =>
    by_cases hp : p.1 = ref
    · have href : ¬ (ref = ref') := fun hc => h hc.symm
      simp [List.filter_cons, hp, lookupTable, href, ih]
    · simp [List.filter_cons, hp, lookupTable, ih]

lemma getTable_dropTable_ne (st : WarehouseState) (ref ref' : String) (h : ref' ≠ ref) :
    getTable (dropTable st ref) ref' = getTable st ref' :=
  lookupTable_filter_ne st.tables ref ref' h

lemma getTable_ensure (st : WarehouseState) (did ref : String) :
    getTable (ensure_dataset_exists st did) ref = getTable st ref := by
  unfold ensure_dataset_exists
  split <;> rfl

lemma ensure_idem (st : WarehouseState) (did : String) :
    ensure_dataset_exists (ensure_dataset_exists st did) did = ensure_dataset_exists st did := by
  by_cases h : did ∈ st.datasets
  · simp [ensure_dataset_exists, h]
  · simp [ensure_dataset_exists, h]

/-- The temporary table reference can never collide with the target table
reference: its table id is strictly longer. -/
lemma tempRef_ne (pid did tid suf : String) :
    tableRef pid did (tid ++ "_temp_" ++ suf) ≠ tableRef pid did tid := by
  intro h
  have hlen := congrArg String.length h
  have h6 : String.length "_temp_" = 6 := rfl
  simp only [tableRef, String.length_append, h6] at hlen
  omega

/-! ### Evaluation lemmas for merge_table -/

lemma merge_table_empty (pid did tid suf : String) (schema : List String) (pk : String)
    (st : WarehouseState) (env : MergeEnv) :
    merge_table pid st tid [] schema pk did suf env = ⟨st, [], none⟩ :=
  rfl

lemma merge_table_notFound (pid did tid suf : String) (schema : List String) (pk : String)
    (st : WarehouseState) (rows : List Row) (env : MergeEnv)
    (hne : rows ≠ [])
    (hnone : getTable st (tableRef pid did tid) = none) :
    merge_table pid st tid rows schema pk did suf env =
      ⟨setTable (ensure_dataset_exists st did) (tableRef pid did tid)
          (rows.map (normalizeRow schema)),
        [Op.ensureDataset did, Op.ensureDataset did,
          Op.loadJson (tableRef pid did tid) rows],
        none⟩ := by
  have hst1 : getTable (ensure_dataset_exists st did) (tableRef pid did tid) = none := by
    rw [getTable_ensure]; exact hnone
  have hempty : rows.isEmpty = false := by
    cases rows with
    | nil => exact absurd rfl hne
    | cons a l => rfl
  simp [merge_table, hempty, hst1, load_table, ensure_idem]

lemma merge_table_found (pid did tid suf : String) (schema : List String) (pk : String)
    (st : WarehouseState) (tgt rows : List Row) (b c : Bool)
    (hne : rows ≠ [])
    (htgt : getTable st (tableRef pid did tid) = some tgt) :
    merge_table pid st tid rows schema pk did suf ⟨b, c⟩ =
      (let ref := tableRef pid did tid
       let tmp := tableRef pid did (tid ++ "_temp_" ++ suf)
       let st2 := setTable (ensure_dataset_exists st did) tmp (rows.map (normalizeRow schema))
       let merged := setTable st2 ref (mergeRows schema pk tgt (rows.map (normalizeRow schema)))
       ⟨if b then (if c then st2 else dropTable st2 tmp)
        else (if c then merged else dropTable merged tmp),
        [Op.ensureDataset did, Op.loadJson tmp rows, Op.mergeStmt ref tmp,
          if c then Op.logWarn ("Failed to clean up temp table " ++ tmp)
          else Op.deleteTable tmp],
        if b then some "merge query failed" else none⟩) := by
  have hst1 : getTable (ensure_dataset_exists st did) (tableRef pid did tid) = some tgt := by
    rw [getTable_ensure]; exact htgt
  have htmp := tempRef_ne pid did tid suf
  have hread :
      getTable (setTable (ensure_dataset_exists st did)
        (tableRef pid did (tid ++ "_temp_" ++ suf)) (rows.map (normalizeRow schema)))
        (tableRef pid did tid) = some tgt := by
    rw [getTable_setTable_ne _ _ _ _ (fun hc => htmp hc.symm)]
    exact hst1
  have hreadTmp :
      getTable (setTable (ensure_dataset_exists st did)
        (tableRef pid did (tid ++ "_temp_" ++ suf)) (rows.map (normalizeRow schema)))
        (tableRef pid did (tid ++ "_temp_" ++ suf)) =
        some (rows.map (normalizeRow schema)) :=
    getTable_setTable_self _ _ _
  have hempty : rows.isEmpty = false := by
    cases rows with
    | nil => exact absurd rfl hne
    | cons a l => rfl
  cases b <;> cases c <;> simp [merge_table, hempty, hst1, hread, hreadTmp]

/-! ### Row and mergeRows lemmas -/

lemma getCol_map_pair (schema : List String) (f : String → Value) (c : String) :
    getCol (schema.map (fun x => (x, f x))) c = if c ∈ schema then f c else Value.null := by
  induction schema with
  | nil => simp [getCol]
  | cons a s ih =>
    by_cases h : a = c
    · subst h
      simp [getCol]
    · have h2 : ¬ (c = a) := fun hc => h hc.symm
      simp [getCol, h, h2, ih]

lemma getCol_normalizeRow (schema : List String) (r : Row) (c : String) :
    getCol (normalizeRow schema r) c = if c ∈ schema then getCol r c else Value.null :=
  getCol_map_pair schema (fun x => getCol r x) c

lemma getCol_mergeInsertRow (schema : List String) (s : Row) (c : String) :
    getCol (mergeInsertRow schema s) c = if c ∈ schema then getCol s c else Value.null :=
  getCol_map_pair schema (fun x => getCol s x) c

lemma getCol_mergeUpdate_pk (schema : List String) (pk : String) (source : List Row)
    (t : Row) (hpk : pk ∈ schema) :
    getCol (mergeUpdate schema pk source t) pk = getCol t pk := by
  unfold mergeUpdate
  cases hfind : source.find? (fun s => getCol s pk == getCol t pk) with
  | none => rfl
  | some s =>
    rw [getCol_map_pair]
    simp [hpk]

lemma mergeUpdate_none (schema : List String) (pk : String) (source : List Row) (t : Row)
    (hfind : source.find? (fun x => getCol x pk == getCol t pk) = none) :
    mergeUpdate schema pk source t = t := by
  unfold mergeUpdate
  rw [hfind]

lemma mergeUpdate_found (schema : List String) (pk : String) (source : List Row)
    (t s0 : Row)
    (hfind : source.find? (fun x => getCol x pk == getCol t pk) = some s0) :
    mergeUpdate schema pk source t =
      schema.map (fun c => (c, if c == pk then getCol t c else getCol s0 c)) := by
  unfold mergeUpdate
  rw [hfind]

lemma mergeUpdate_of_no_match (schema : List String) (pk : String) (source : List Row)
    (t : Row) (h : ∀ s ∈ source, getCol s pk ≠ getCol t pk) :
    mergeUpdate schema pk source t = t := by
  unfold mergeUpdate
  cases hfind : source.find? (fun s => getCol s pk == getCol t pk) with
  | none => rfl
  | some s =>
    have hs : getCol s pk = getCol t pk := by simpa using List.find?_some hfind
    exact absurd hs (h s (List.mem_of_find?_eq_some hfind))

lemma mem_mergeRows_of_untouched (schema : List String) (pk : String)
    (tgt src : List Row) (t : Row) (ht : t ∈ tgt)
    (h : ∀ s ∈ src, getCol s pk ≠ getCol t pk) :
    t ∈ mergeRows schema pk tgt src := by
  unfold mergeRows
  apply List.mem_append_left
  have he : mergeUpdate schema pk src t = t := mergeUpdate_of_no_match schema pk src t h
  exact he ▸ List.mem_map_of_mem _ ht

lemma length_mergeRows (schema : List String) (pk : String) (tgt src : List Row) :
    tgt.length ≤ (mergeRows schema pk tgt src).length := by
  unfold mergeRows
  simp only [List.length_append, List.length_map]
  omega

lemma exists_key_mergeRows (schema : List String) (pk : String) (tgt src : List Row)
    (s : Row) (hpk : pk ∈ schema) (hs : s ∈ src) :
    ∃ f ∈ mergeRows schema pk tgt src, getCol f pk = getCol s pk := by
  by_cases hmatch : ∃ t ∈ tgt, getCol t pk = getCol s pk
  · obtain ⟨t, ht, hkey⟩ := hmatch
    refine ⟨mergeUpdate schema pk src t,
      List.mem_append_left _ (List.mem_map_of_mem _ ht), ?_⟩
    rw [getCol_mergeUpdate_pk schema pk src t hpk, hkey]
  · push_neg at hmatch
    have hfilter :
        s ∈ src.filter (fun x => !(tgt.any (fun t => getCol t pk == getCol x pk))) := by
      refine List.mem_filter.2 ⟨hs, ?_⟩
      simp only [Bool.not_eq_eq_eq_not, Bool.not_true, List.any_eq_false, beq_iff_eq]
      exact hmatch
    refine ⟨mergeInsertRow schema s,
      List.mem_append_right _ (List.mem_map_of_mem _ hfilter), ?_⟩
    rw [getCol_mergeInsertRow]
    simp [hpk]

lemma values_mergeRows (schema : List String) (pk : String) (tgt src : List Row)
    (s : Row) (hpk : pk ∈ schema)
    (hndS : (src.map (fun x => getCol x pk)).Nodup) (hs : s ∈ src) :
    ∀ f ∈ mergeRows schema pk tgt src, getCol f pk = getCol s pk →
      ∀ c ∈ schema, getCol f c = getCol s c := by
  intro f hf hkey c hc
  unfold mergeRows at hf
  rcases List.mem_append.1 hf with hf | hf
  · obtain ⟨t, ht, rfl⟩ := List.mem_map.1 hf
    cases hfind : src.find? (fun x => getCol x pk == getCol t pk) with
    | none =>
      rw [mergeUpdate_none schema pk src t hfind] at hkey
      have hnomatch := List.find?_eq_none.1 hfind s hs
      simp [hkey] at hnomatch
    | some s0 =>
      rw [mergeUpdate_found schema pk src t s0 hfind] at hkey ⊢
      have hks0 : getCol s0 pk = getCol t pk := by simpa using List.find?_some hfind
      have hs0mem : s0 ∈ src := List.mem_of_find?_eq_some hfind
      have hkt : getCol t pk = getCol s pk := by
        rw [getCol_map_pair] at hkey
        simpa [hpk] using hkey
      have hss : s0 = s :=
        List.inj_on_of_nodup_map hndS hs0mem hs (by rw [hks0, hkt])
      subst hss
      rw [getCol_map_pair]
      by_cases hcpk : c = pk
      · subst hcpk
        simp [hc, hkt]
      · simp [hc, hcpk]
  · obtain ⟨s0, hs0, rfl⟩ := List.mem_map.1 hf
    have hs0src : s0 ∈ src := (List.mem_filter.1 hs0).1
    rw [getCol_mergeInsertRow] at hkey
    have hk : getCol s0 pk = getCol s pk := by simpa [hpk] using hkey
    have hss : s0 = s := List.inj_on_of_nodup_map hndS hs0src hs hk
    subst hss
    rw [getCol_mergeInsertRow]
    simp [hc]

lemma countP_key_eq_count_map (pk : String) (l : List Row) (k : Value) :
    l.countP (fun f => getCol f pk == k) = (l.map (fun x => getCol x pk)).count k := by
  rw [List.count, List.countP_map]
  rfl

lemma countP_mergeRows (schema : List String) (pk : String) (tgt src : List Row)
    (s : Row) (hpk : pk ∈ schema)
    (hndT : (tgt.map (fun x => getCol x pk)).Nodup)
    (hndS : (src.map (fun x => getCol x pk)).Nodup)
    (hs : s ∈ src) :
    (mergeRows schema pk tgt src).countP (fun f => getCol f pk == getCol s pk) = 1 := by
  unfold mergeRows
  rw [List.countP_append]
  have hupd :
      (tgt.map (mergeUpdate schema pk src)).countP (fun f => getCol f pk == getCol s pk) =
        tgt.countP (fun t => getCol t pk == getCol s pk) := by
    rw [List.countP_map]
    refine List.countP_congr ?_
    intro t ht
    simp [Function.comp, getCol_mergeUpdate_pk schema pk src t hpk]
  have hins :
      (((src.filter (fun x => !(tgt.any (fun t => getCol t pk == getCol x pk)))).map
          (mergeInsertRow schema)).countP (fun f => getCol f pk == getCol s pk)) =
        src.countP (fun x => (getCol x pk == getCol s pk) &&
          !(tgt.any (fun t => getCol t pk == getCol x pk))) := by
    rw [List.countP_map]
    rw [List.countP_filter]
    refine List.countP_congr ?_
    intro x hx
    simp [Function.comp, getCol_mergeInsertRow, hpk]
  rw [hupd, hins]
  by_cases hmem : getCol s pk ∈ tgt.map (fun x => getCol x pk)
  · have h1 : tgt.countP (fun t => getCol t pk == getCol s pk) = 1 := by
      rw [countP_key_eq_count_map]
      exact List.count_eq_one_of_mem hndT hmem
    have h2 : src.countP (fun x => (getCol x pk == getCol s pk) &&
        !(tgt.any (fun t => getCol t pk == getCol x pk))) = 0 := by
      rw [List.countP_eq_zero]
      intro x hx
      by_cases hk : getCol x pk = getCol s pk
      · obtain ⟨t, ht, hkt⟩ := List.mem_map.1 hmem
        have hany : tgt.any (fun t => getCol t pk == getCol x pk) = true := by
          rw [List.any_eq_true]
          exact ⟨t, ht, by simp [hkt, hk]⟩
        simp [hany]
      · simp [hk]
    rw [h1, h2]
  · have h1 : tgt.countP (fun t => getCol t pk == getCol s pk) = 0 := by
      rw [countP_key_eq_count_map]
      exact List.count_eq_zero_of_not_mem hmem
    have h2 : src.countP (fun x => (getCol x pk == getCol s pk) &&
        !(tgt.any (fun t => getCol t pk == getCol x pk))) = 1 := by
      have hcg : src.countP (fun x => (getCol x pk == getCol s pk) &&
          !(tgt.any (fun t => getCol t pk == getCol x pk))) =
            src.countP (fun x => getCol x pk == getCol s pk) := by
        refine List.countP_congr ?_
        intro x hx
        by_cases hk : getCol x pk = getCol s pk
        · have hany : tgt.any (fun t => getCol t pk == getCol x pk) = false := by
            rw [List.any_eq_false]
            intro t ht hc
            exact hmem (List.mem_map.2 ⟨t, ht, by simpa [hk] using hc⟩)
          rw [hany]
          simp [hk]
        · simp [hk]
      rw [hcg, countP_key_eq_count_map]
      exact List.count_eq_one_of_mem hndS
        (List.mem_map.2 ⟨s, hs, rfl⟩)
    rw [h1, h2]

lemma nodup_keys_mergeRows (schema : List String) (pk : String) (tgt src : List Row)
    (hpk : pk ∈ schema)
    (hndT : (tgt.map (fun x => getCol x pk)).Nodup)
    (hndS : (src.map (fun x => getCol x pk)).Nodup) :
    ((mergeRows schema pk tgt src).map (fun x => getCol x pk)).Nodup := by
  unfold mergeRows
  have e1 : (tgt.map (mergeUpdate schema pk src)).map (fun x => getCol x pk) =
      tgt.map (fun x => getCol x pk) := by
    rw [List.map_map]
    exact List.map_congr_left (fun t ht => getCol_mergeUpdate_pk schema pk src t hpk)
  have e2 : ((src.filter (fun x => !(tgt.any (fun t => getCol t pk == getCol x pk)))).map
        (mergeInsertRow schema)).map (fun x => getCol x pk) =
      (src.filter (fun x => !(tgt.any (fun t => getCol t pk == getCol x pk)))).map
        (fun x => getCol x pk) := by
    rw [List.map_map]
    refine List.map_congr_left (fun x hx => ?_)
    simp [Function.comp, getCol_mergeInsertRow, hpk]
  rw [List.map_append, e1, e2, List.nodup_append]
  refine ⟨hndT, ?_, ?_⟩
  · exact ((List.filter_sublist src).map (fun x => getCol x pk)).nodup hndS
  · intro k hk1 hk2
    obtain ⟨x, hx, hkx⟩ := List.mem_map.1 hk2
    have hq := (List.mem_filter.1 hx).2
    simp only [Bool.not_eq_eq_eq_not, Bool.not_true, List.any_eq_false, beq_iff_eq] at hq
    obtain ⟨t, ht, hkt⟩ := List.mem_map.1 hk1
    exact hq t ht (by rw [hkt, ← hkx])

lemma keys_map_normalize (schema : List String) (pk : String) (rows : List Row)
    (hpk : pk ∈ schema) :
    (rows.map (normalizeRow schema)).map (fun x => getCol x pk) =
      rows.map (fun x => getCol x pk) := by
  rw [List.map_map]
  refine List.map_congr_left (fun r hr => ?_)
  simp [Function.comp, getCol_normalizeRow, hpk]

lemma merge_table_ok_state (pid did tid suf : String) (schema : List String) (pk : String)
    (st : WarehouseState) (tgt rows : List Row)
    (hne : rows ≠ []) (htgt : getTable st (tableRef pid did tid) = some tgt) :
    (merge_table pid st tid rows schema pk did suf ⟨false, false⟩).state =
      dropTable
        (setTable
          (setTable (ensure_dataset_exists st did)
            (tableRef pid did (tid ++ "_temp_" ++ suf)) (rows.map (normalizeRow schema)))
          (tableRef pid did tid)
          (mergeRows schema pk tgt (rows.map (normalizeRow schema))))
        (tableRef pid did (tid ++ "_temp_" ++ suf)) := by
  rw [merge_table_found pid did tid suf schema pk st tgt rows false false hne htgt]
  simp

lemma merge_table_ok_target (pid did tid suf : String) (schema : List String) (pk : String)
    (st : WarehouseState) (tgt rows : List Row)
    (hne : rows ≠ []) (htgt : getTable st (tableRef pid did tid) = some tgt) :
    getTable (merge_table pid st tid rows schema pk did suf ⟨false, false⟩).state
        (tableRef pid did tid) =
      some (mergeRows schema pk tgt (rows.map (normalizeRow schema))) := by
  rw [merge_table_ok_state pid did tid suf schema pk st tgt rows hne htgt]
  rw [getTable_dropTable_ne _ _ _ (fun hc => tempRef_ne pid did tid suf hc.symm)]
  exact getTable_setTable_self _ _ _

lemma merge_table_load_target (pid did tid suf : String) (schema : List String)
    (pk : String) (st : WarehouseState) (rows : List Row) (env : MergeEnv)
    (hne : rows ≠ []) (hnone : getTable st (tableRef pid did tid) = none) :
    getTable (merge_table pid st tid rows schema pk did suf env).state
        (tableRef pid did tid) = some (rows.map (normalizeRow schema)) := by
  rw [merge_table_notFound pid did tid suf schema pk st rows env hne hnone]
  exact getTable_setTable_self _ _ _

/-! ### Claim theorems -/

/-- C1: for every non-empty list of input rows with distinct primary-key
values and every existing target-table state, merge_table leaves the
target table in a state where every row carrying an input primary key
holds that input row's values on all schema columns and such a row exists,
every pre-existing row whose primary key does not occur in the input is
still present unchanged, and no row is deleted (the table cannot
shrink). -/
theorem C1_merge_table_upsert
    (pid did tid suf : String) (schema : List String) (pk : String)
    (st : WarehouseState) (tgt rows : List Row)
    (hne : rows ≠ []) (hpk : pk ∈ schema)
    (huniq : (rows.map (fun r => getCol r pk)).Nodup)
    (htgt : getTable st (tableRef pid did tid) = some tgt) :
    let final := (getTable (merge_table pid st tid rows schema pk did suf
        ⟨false, false⟩).state (tableRef pid did tid)).getD []
    (getTable (merge_table pid st tid rows schema pk did suf ⟨false, false⟩).state
        (tableRef pid did tid)).isSome = true ∧
    (∀ r ∈ rows,
      (∃ f ∈ final, getCol f pk = getCol r pk) ∧
      (∀ f ∈ final, getCol f pk = getCol r pk → ∀ c ∈ schema, getCol f c = getCol r c)) ∧
    (∀ t ∈ tgt, (∀ r ∈ rows, getCol r pk ≠ getCol t pk) → t ∈ final) ∧
    tgt.length ≤ final.length := by
  have htable := merge_table_ok_target pid did tid suf schema pk st tgt rows hne htgt
  simp only [htable, Option.getD_some, Option.isSome_some]
  have hndS : ((rows.map (normalizeRow schema)).map (fun x => getCol x pk)).Nodup := by
    rw [keys_map_normalize schema pk rows hpk]
    exact huniq
  refine ⟨trivial, ?_, ?_, ?_⟩
  · intro r hr
    have hsrc : normalizeRow schema r ∈ rows.map (normalizeRow schema) :=
      List.mem_map_of_mem _ hr
    have hkey : getCol (normalizeRow schema r) pk = getCol r pk := by
      simp [getCol_normalizeRow, hpk]
    constructor
    · obtain ⟨f, hf, hfk⟩ :=
        exists_key_mergeRows schema pk tgt (rows.map (normalizeRow schema))
          (normalizeRow schema r) hpk hsrc
      exact ⟨f, hf, by rw [hfk, hkey]⟩
    · intro f hf hfk c hc
      have hv := values_mergeRows schema pk tgt (rows.map (normalizeRow schema))
        (normalizeRow schema r) hpk hndS hsrc f hf (by rw [hfk, ← hkey]) c hc
      rw [hv]
      simp [getCol_normalizeRow, hc]
  · intro t ht hnot
    apply mem_mergeRows_of_untouched schema pk tgt (rows.map (normalizeRow schema)) t ht
    intro s hsmem
    obtain ⟨r, hr, rfl⟩ := List.mem_map.1 hsmem
    have hk : getCol (normalizeRow schema r) pk = getCol r pk := by
      simp [getCol_normalizeRow, hpk]
    rw [hk]
    exact hnot r hr
  · exact length_mergeRows schema pk tgt (rows.map (normalizeRow schema))

/-- Witness for C1 at a concrete two-row target and one-row input. -/
theorem C1_merge_table_upsert_witness :
    ([[("id", Value.int 1), ("v", Value.str "z")]] : List Row) ≠ [] ∧
    "id" ∈ ["id", "v"] ∧
    (([[("id", Value.int 1), ("v", Value.str "z")]] : List Row).map
      (fun r => getCol r "id")).Nodup ∧
    getTable ⟨["d"], [("p.d.t",
        [[("id", Value.int 1), ("v", Value.str "x")],
         [("id", Value.int 2), ("v", Value.str "y")]])]⟩ (tableRef "p" "d" "t") =
      some [[("id", Value.int 1), ("v", Value.str "x")],
            [("id", Value.int 2), ("v", Value.str "y")]] ∧
    (let final := (getTable (merge_table "p"
        ⟨["d"], [("p.d.t",
          [[("id", Value.int 1), ("v", Value.str "x")],
           [("id", Value.int 2), ("v", Value.str "y")]])]⟩ "t"
        [[("id", Value.int 1), ("v", Value.str "z")]] ["id", "v"] "id" "d" "s"
        ⟨false, false⟩).state (tableRef "p" "d" "t")).getD []
     (getTable (merge_table "p"
        ⟨["d"], [("p.d.t",
          [[("id", Value.int 1), ("v", Value.str "x")],
           [("id", Value.int 2), ("v", Value.str "y")]])]⟩ "t"
        [[("id", Value.int 1), ("v", Value.str "z")]] ["id", "v"] "id" "d" "s"
        ⟨false, false⟩).state (tableRef "p" "d" "t")).isSome = true ∧
     (∀ r ∈ ([[("id", Value.int 1), ("v", Value.str "z")]] : List Row),
       (∃ f ∈ final, getCol f "id" = getCol r "id") ∧
       (∀ f ∈ final, getCol f "id" = getCol r "id" →
         ∀ c ∈ ["id", "v"], getCol f c = getCol r c)) ∧
     (∀ t ∈ [[("id", Value.int 1), ("v", Value.str "x")],
             [("id", Value.int 2), ("v", Value.str "y")]],
       (∀ r ∈ ([[("id", Value.int 1), ("v", Value.str "z")]] : List Row),
         getCol r "id" ≠ getCol t "id") → t ∈ final) ∧
     ([[("id", Value.int 1), ("v", Value.str "x")],
       [("id", Value.int 2), ("v", Value.str "y")]] : List Row).length ≤ final.length) :=
  ⟨by decide, by decide, by decide, by decide,
    C1_merge_table_upsert "p" "d" "t" "s" ["id", "v"] "id"
      ⟨["d"], [("p.d.t",
        [[("id", Value.int 1), ("v", Value.str "x")],
         [("id", Value.int 2), ("v", Value.str "y")]])]⟩
      [[("id", Value.int 1), ("v", Value.str "x")],
       [("id", Value.int 2), ("v", Value.str "y")]]
      [[("id", Value.int 1), ("v", Value.str "z")]]
      (by decide) (by decide) (by decide) (by decide)⟩

/-- C2: merging the same unique-key row list twice in a row (whatever the
initial target state, absent or holding rows with distinct keys as the
spec's table invariant requires) leaves the target table with exactly one
row per input primary key, holding the input (second run's) values. -/
theorem C2_merge_table_idempotent
    (pid did tid suf1 suf2 : String) (schema : List String) (pk : String)
    (st : WarehouseState) (rows : List Row)
    (hpk : pk ∈ schema)
    (huniq : (rows.map (fun r => getCol r pk)).Nodup)
    (hinit : getTable st (tableRef pid did tid) = none ∨
      ∃ tgt, getTable st (tableRef pid did tid) = some tgt ∧
        (tgt.map (fun t => getCol t pk)).Nodup) :
    let final := (getTable (merge_table pid
        (merge_table pid st tid rows schema pk did suf1 ⟨false, false⟩).state
        tid rows schema pk did suf2 ⟨false, false⟩).state (tableRef pid did tid)).getD []
    ∀ r ∈ rows,
      final.countP (fun f => getCol f pk == getCol r pk) = 1 ∧
      ∀ f ∈ final, getCol f pk = getCol r pk → ∀ c ∈ schema, getCol f c = getCol r c := by
  intro final r hr
  have hne : rows ≠ [] := by
    intro hcon
    rw [hcon] at hr
    exact absurd hr (List.not_mem_nil r)
  have hndS : ((rows.map (normalizeRow schema)).map (fun x => getCol x pk)).Nodup := by
    rw [keys_map_normalize schema pk rows hpk]
    exact huniq
  have hmid : ∃ t1, getTable (merge_table pid st tid rows schema pk did suf1
      ⟨false, false⟩).state (tableRef pid did tid) = some t1 ∧
      (t1.map (fun x => getCol x pk)).Nodup := by
    rcases hinit with hnone | ⟨tgt, htgt, hndT⟩
    · refine ⟨rows.map (normalizeRow schema),
        merge_table_load_target pid did tid suf1 schema pk st rows ⟨false, false⟩ hne hnone,
        hndS⟩
    · exact ⟨mergeRows schema pk tgt (rows.map (normalizeRow schema)),
        merge_table_ok_target pid did tid suf1 schema pk st tgt rows hne htgt,
        nodup_keys_mergeRows schema pk tgt (rows.map (normalizeRow schema)) hpk hndT hndS⟩
  obtain ⟨t1, ht1, hndT1⟩ := hmid
  have htable2 := merge_table_ok_target pid did tid suf2 schema pk _ t1 rows hne ht1
  have hkey : getCol (normalizeRow schema r) pk = getCol r pk := by
    simp [getCol_normalizeRow, hpk]
  have hsrc : normalizeRow schema r ∈ rows.map (normalizeRow schema) :=
    List.mem_map_of_mem _ hr
  have hfinal : final = mergeRows schema pk t1 (rows.map (normalizeRow schema)) := by
    simp only [final, htable2, Option.getD_some]
  constructor
  · rw [hfinal]
    have hcount := countP_mergeRows schema pk t1 (rows.map (normalizeRow schema))
      (normalizeRow schema r) hpk hndT1 hndS hsrc
    rw [hkey] at hcount
    exact hcount
  · intro f hf hfk c hc
    rw [hfinal] at hf
    have hv := values_mergeRows schema pk t1 (rows.map (normalizeRow schema))
      (normalizeRow schema r) hpk hndS hsrc f hf (by rw [hfk, ← hkey]) c hc
    rw [hv]
    simp [getCol_normalizeRow, hc]

/-- Witness for C2 at a concrete input merged twice into an initially
absent table. -/
theorem C2_merge_table_idempotent_witness :
    "id" ∈ ["id", "v"] ∧
    (([[("id", Value.int 7), ("v", Value.str "a")],
       [("id", Value.int 8), ("v", Value.str "b")]] : List Row).map
      (fun r => getCol r "id")).Nodup ∧
    (getTable ⟨[], []⟩ (tableRef "p" "d" "t") = none ∨
      ∃ tgt, getTable (⟨[], []⟩ : WarehouseState) (tableRef "p" "d" "t") = some tgt ∧
        (tgt.map (fun t => getCol t "id")).Nodup) ∧
    (let final := (getTable (merge_table "p"
        (merge_table "p" ⟨[], []⟩ "t"
          [[("id", Value.int 7), ("v", Value.str "a")],
           [("id", Value.int 8), ("v", Value.str "b")]] ["id", "v"] "id" "d" "s1"
          ⟨false, false⟩).state
        "t" [[("id", Value.int 7), ("v", Value.str "a")],
             [("id", Value.int 8), ("v", Value.str "b")]] ["id", "v"] "id" "d" "s2"
        ⟨false, false⟩).state (tableRef "p" "d" "t")).getD []
     ∀ r ∈ ([[("id", Value.int 7), ("v", Value.str "a")],
             [("id", Value.int 8), ("v", Value.str "b")]] : List Row),
       final.countP (fun f => getCol f "id" == getCol r "id") = 1 ∧
       ∀ f ∈ final, getCol f "id" = getCol r "id" →
         ∀ c ∈ ["id", "v"], getCol f c = getCol r c) :=
  ⟨by decide, by decide, Or.inl (by decide),
    C2_merge_table_idempotent "p" "d" "t" "s1" "s2" ["id", "v"] "id" ⟨[], []⟩
      [[("id", Value.int 7), ("v", Value.str "a")],
       [("id", Value.int 8), ("v", Value.str "b")]]
      (by decide) (by decide) (Or.inl (by decide))⟩

/-- C3: merging an empty row list is a complete no-op: whatever the
warehouse state and failure environment, merge_table returns at once with
the state untouched, an empty operation trace (so no temp table is
created and no load, MERGE or delete is issued) and no error. -/
theorem C3_merge_table_empty_noop (pid did tid suf : String) (schema : List String)
    (pk : String) (st : WarehouseState) (env : MergeEnv) :
    merge_table pid st tid [] schema pk did suf env = ⟨st, [], none⟩ :=
  rfl

/-- C4: when the target table does not exist, merge_table on a non-empty
input ends in exactly the state and error of load_table with
WRITE_TRUNCATE, the table afterwards holds exactly the schema projection
of the input rows, and every operation in the trace touches only the
target table — in particular no temporary table is staged and no MERGE
issued. -/
theorem C4_merge_table_degrades_to_load
    (pid did tid suf : String) (schema : List String) (pk : String)
    (st : WarehouseState) (rows : List Row) (env : MergeEnv)
    (hne : rows ≠ []) (hnone : getTable st (tableRef pid did tid) = none) :
    let out := merge_table pid st tid rows schema pk did suf env
    out.state = (load_table pid st tid rows schema did WriteDisposition.truncate).state ∧
    out.err = (load_table pid st tid rows schema did WriteDisposition.truncate).err ∧
    getTable out.state (tableRef pid did tid) = some (rows.map (normalizeRow schema)) ∧
    out.ops.all (opTouchesOnly (tableRef pid did tid)) = true := by
  have hrun := merge_table_notFound pid did tid suf schema pk st rows env hne hnone
  refine ⟨?_, ?_, ?_, ?_⟩
  · rw [hrun]
    simp [load_table]
  · rw [hrun]
    simp [load_table]
  · exact merge_table_load_target pid did tid suf schema pk st rows env hne hnone
  · rw [hrun]
    simp [opTouchesOnly]

/-- Witness for C4 at a one-row input and an initially empty warehouse. -/
theorem C4_merge_table_degrades_to_load_witness :
    ([[("id", Value.int 3)]] : List Row) ≠ [] ∧
    getTable ⟨[], []⟩ (tableRef "p" "d" "t") = none ∧
    (let out := merge_table "p" ⟨[], []⟩ "t" [[("id", Value.int 3)]] ["id"] "id" "d" "s"
        ⟨true, true⟩
     out.state = (load_table "p" ⟨[], []⟩ "t" [[("id", Value.int 3)]] ["id"] "d"
        WriteDisposition.truncate).state ∧
     out.err = (load_table "p" ⟨[], []⟩ "t" [[("id", Value.int 3)]] ["id"] "d"
        WriteDisposition.truncate).err ∧
     getTable out.state (tableRef "p" "d" "t") =
        some ([[("id", Value.int 3)]].map (normalizeRow ["id"])) ∧
     out.ops.all (opTouchesOnly (tableRef "p" "d" "t")) = true) :=
  ⟨by decide, by decide,
    C4_merge_table_degrades_to_load "p" "d" "t" "s" ["id"] "id" ⟨[], []⟩
      [[("id", Value.int 3)]] ⟨true, true⟩ (by decide) (by decide)⟩

/-- C5: once the input has been staged into the temporary table (target
exists, non-empty rows), the temp table is gone from the final state
whenever the cleanup itself does not fail, regardless of whether the MERGE
succeeded; the error returned to the caller is exactly the MERGE failure
and is independent of the cleanup outcome (a cleanup failure is recorded
as a logged warning in the trace, never raised); and the trace always ends
with the MERGE statement followed by the cleanup attempt, so a MERGE
failure propagates only after it. -/
theorem C5_merge_table_cleanup
    (pid did tid suf : String) (schema : List String) (pk : String)
    (st : WarehouseState) (tgt rows : List Row)
    (hne : rows ≠ []) (htgt : getTable st (tableRef pid did tid) = some tgt) :
    ∀ b c : Bool,
      let out := merge_table pid st tid rows schema pk did suf ⟨b, c⟩
      (c = false → getTable out.state (tableRef pid did (tid ++ "_temp_" ++ suf)) = none) ∧
      out.err = (if b then some "merge query failed" else none) ∧
      (c = true → Op.logWarn ("Failed to clean up temp table " ++
        tableRef pid did (tid ++ "_temp_" ++ suf)) ∈ out.ops) ∧
      out.ops.drop (out.ops.length - 2) =
        [Op.mergeStmt (tableRef pid did tid) (tableRef pid did (tid ++ "_temp_" ++ suf)),
          if c then Op.logWarn ("Failed to clean up temp table " ++
            tableRef pid did (tid ++ "_temp_" ++ suf))
          else Op.deleteTable (tableRef pid did (tid ++ "_temp_" ++ suf))] := by
  intro b c
  have hrun := merge_table_found pid did tid suf schema pk st tgt rows b c hne htgt
  refine ⟨?_, ?_, ?_, ?_⟩
  · intro hc
    subst hc
    rw [hrun]
    cases b <;> simp [getTable_dropTable_self]
  · rw [hrun]
  · intro hc
    subst hc
    rw [hrun]
    cases b <;> simp
  · rw [hrun]
    cases b <;> cases c <;> simp

/-- Witness for C5: concrete target table and rows, exercising the
failing-MERGE path with and without a failing cleanup. -/
theorem C5_merge_table_cleanup_witness :
    ([[("id", Value.int 1)]] : List Row) ≠ [] ∧
    getTable ⟨["d"], [("p.d.t", [[("id", Value.int 1)]])]⟩ (tableRef "p" "d" "t") =
      some [[("id", Value.int 1)]] ∧
    getTable (merge_table "p" ⟨["d"], [("p.d.t", [[("id", Value.int 1)]])]⟩ "t"
        [[("id", Value.int 1)]] ["id"] "id" "d" "s" ⟨true, false⟩).state
      (tableRef "p" "d" ("t" ++ "_temp_" ++ "s")) = none ∧
    (merge_table "p" ⟨["d"], [("p.d.t", [[("id", Value.int 1)]])]⟩ "t"
        [[("id", Value.int 1)]] ["id"] "id" "d" "s" ⟨true, true⟩).err =
      some "merge query failed" ∧
    Op.logWarn ("Failed to clean up temp table " ++ tableRef "p" "d" ("t" ++ "_temp_" ++ "s")) ∈
      (merge_table "p" ⟨["d"], [("p.d.t", [[("id", Value.int 1)]])]⟩ "t"
        [[("id", Value.int 1)]] ["id"] "id" "d" "s" ⟨true, true⟩).ops :=
  ⟨by decide, by decide,
    (C5_merge_table_cleanup "p" "d" "t" "s" ["id"] "id"
      ⟨["d"], [("p.d.t", [[("id", Value.int 1)]])]⟩ [[("id", Value.int 1)]]
      [[("id", Value.int 1)]] (by decide) (by decide) true false).1 rfl,
    (C5_merge_table_cleanup "p" "d" "t" "s" ["id"] "id"
      ⟨["d"], [("p.d.t", [[("id", Value.int 1)]])]⟩ [[("id", Value.int 1)]]
      [[("id", Value.int 1)]] (by decide) (by decide) true true).2.1,
    (C5_merge_table_cleanup "p" "d" "t" "s" ["id"] "id"
      ⟨["d"], [("p.d.t", [[("id", Value.int 1)]])]⟩ [[("id", Value.int 1)]]
      [[("id", Value.int 1)]] (by decide) (by decide) true true).2.2.1 rfl⟩

/-- C6 counterexample: a source whose fetch returns no rows makes run_sync
return right after the fetch — transform is never called and no load of
either kind is issued — refuting the claim that run_sync always performs
fetch, then transform, then exactly one load. -/
theorem C6_run_sync_counterexample :
    (run_sync "p" ⟨[], []⟩ ⟨"t", "id", ["id"], [], fun rs => rs⟩ false "s"
        ⟨false, false⟩).calls = [DriverCall.fetch] ∧
    (run_sync "p" ⟨[], []⟩ ⟨"t", "id", ["id"], [], fun rs => rs⟩ false "s"
        ⟨false, false⟩).ops = [] ∧
    (run_sync "p" ⟨[], []⟩ ⟨"t", "id", ["id"], [], fun rs => rs⟩ false "s"
        ⟨false, false⟩).calls.countP isLoadCall = 0 :=
  ⟨rfl, rfl, rfl⟩

/-- C6 (amended): when fetch returns data, run_sync calls transform on the
fetched data and then performs exactly one load — load_table with
WRITE_TRUNCATE when full_refresh, merge_table on the source's table,
schema and primary key otherwise — while an empty fetch skips transform
and load entirely; and two successive merge runs whose fetches return
the row with id 1 and val "a" and then id 1 and val "b" leave the table
holding the id-1/val-"b" row only. -/
theorem C6_run_sync_amended :
    (∀ (pid : String) (st : WarehouseState) (src : SourceModel) (fr : Bool)
        (suf : String) (env : MergeEnv),
      src.fetchResult ≠ [] →
        (run_sync pid st src fr suf env).calls =
          [DriverCall.fetch, DriverCall.transform src.fetchResult,
            if fr then DriverCall.loadTable (src.transform src.fetchResult)
            else DriverCall.mergeTable (src.transform src.fetchResult)]) ∧
    getTable (run_sync "p"
        (run_sync "p" ⟨[], []⟩
          ⟨"t", "id", ["id", "val"],
            [[("id", Value.int 1), ("val", Value.str "a")]], fun rs => rs⟩
          false "s1" ⟨false, false⟩).state
        ⟨"t", "id", ["id", "val"],
          [[("id", Value.int 1), ("val", Value.str "b")]], fun rs => rs⟩
        false "s2" ⟨false, false⟩).state (tableRef "p" "raw_data" "t") =
      some [[("id", Value.int 1), ("val", Value.str "b")]] := by
  constructor
  · intro pid st src fr suf env hne
    have hempty : src.fetchResult.isEmpty = false := by
      cases hsrc : src.fetchResult with
      | nil => exact absurd hsrc hne
      | cons a l => rfl
    cases fr <;> simp [run_sync, hempty]
  · rfl

/-- Witness for C6 at a concrete one-row source in full-refresh mode. -/
theorem C6_run_sync_amended_witness :
    ((⟨"t", "id", ["id"], [[("id", Value.int 1)]], fun rs => rs⟩ :
        SourceModel).fetchResult ≠ []) ∧
    (run_sync "p" ⟨[], []⟩ ⟨"t", "id", ["id"], [[("id", Value.int 1)]], fun rs => rs⟩
        true "s" ⟨false, false⟩).calls =
      [DriverCall.fetch, DriverCall.transform [[("id", Value.int 1)]],
        DriverCall.loadTable [[("id", Value.int 1)]]] :=
  ⟨by decide,
    C6_run_sync_amended.1 "p" ⟨[], []⟩
      ⟨"t", "id", ["id"], [[("id", Value.int 1)]], fun rs => rs⟩ true "s"
      ⟨false, false⟩ (by decide)⟩

/-- C7 counterexample: the Linear Issues page calls its loader with no
try/except, so a raising loader propagates out of the page — refuting the
claim that on every dashboard page a data-load error is caught by the page
itself. -/
theorem C7_page_error_counterexample :
    linearIssuesPage (Except.error "boom") = Except.error "boom" :=
  rfl

/-- C7 (amended): the Summary page catches every data-load error per
section, renders an inline warning in the failing section and keeps
rendering all remaining sections; the GitHub PRs, Google Trends and Stock
Prices pages catch their load errors, show an inline error box and stop;
but the Linear Issues, Hacker News, HN Sentiment, FDA Food Recalls, Iowa
Liquor Sales, FDA Food Events and Oura Wellness pages call their loaders
unguarded, so a data-load exception escapes those pages. -/
theorem C7_page_error_handling_amended :
    (∀ e : String, linearIssuesPage (Except.error e) = Except.error e) ∧
    (∀ e : String,
      hackerNewsPage (Except.error e) (Except.ok ()) (Except.ok ()) = Except.error e) ∧
    (∀ e : String, hnSentimentPage (Except.error e) = Except.error e) ∧
    (∀ e : String,
      fdaRecallsPage (Except.error e) (Except.ok ()) (Except.ok ()) = Except.error e) ∧
    (∀ e : String,
      iowaLiquorPage (Except.error e) (Except.ok ()) (Except.ok ()) = Except.error e) ∧
    (∀ e : String,
      fdaEventsPage (Except.error e) (Except.ok ()) (Except.ok ()) (Except.ok ()) =
        Except.error e) ∧
    (∀ e : String, ouraWellnessPage (Except.error e) = Except.error e) ∧
    (∀ e : String, githubPRsPage (Except.error e) (Except.ok ()) =
      Except.ok [Widget.title "GitHub Pull Requests",
        Widget.errorBox ("Could not load GitHub data: " ++ e),
        Widget.infoBox "sync instructions"]) ∧
    (∀ e : String, googleTrendsPage (Except.error e) =
      Except.ok [Widget.title "Google Trends",
        Widget.errorBox ("Could not load Google Trends data: " ++ e),
        Widget.infoBox "sync instructions"]) ∧
    (∀ e : String, stockPricesPage (Except.error e) (Except.ok ()) =
      Except.ok [Widget.title "Stock Prices",
        Widget.errorBox ("Could not load stock data: " ++ e),
        Widget.infoBox "sync instructions"]) ∧
    (∀ (isPublic : Bool) (l g o h hs t r li ev s se : Loader),
      ∃ ws, summaryPage isPublic l g o h hs t r li ev s se = Except.ok ws) ∧
    (∀ e : String,
      summaryPage false (Except.ok ()) (Except.ok ()) (Except.error e) (Except.ok ())
        (Except.ok ()) (Except.ok ()) (Except.ok ()) (Except.ok ()) (Except.ok ())
        (Except.ok ()) (Except.ok ()) =
      Except.ok
        [Widget.title "Summary", Widget.header "Data Sources",
         Widget.header "Linear", Widget.metricsRow "Linear", Widget.divider,
         Widget.header "GitHub", Widget.metricsRow "GitHub", Widget.divider,
         Widget.header "Oura", Widget.warning ("Could not load Oura data: " ++ e),
         Widget.divider,
         Widget.header "Hacker News", Widget.metricsRow "Hacker News", Widget.divider,
         Widget.header "HN Sentiment", Widget.metricsRow "HN Sentiment", Widget.divider,
         Widget.header "Google Trends", Widget.metricsRow "Google Trends", Widget.divider,
         Widget.header "FDA Food Recalls", Widget.metricsRow "FDA Food Recalls",
         Widget.divider,
         Widget.header "Iowa Liquor Sales", Widget.metricsRow "Iowa Liquor Sales",
         Widget.divider,
         Widget.header "FDA Food Events", Widget.metricsRow "FDA Food Events",
         Widget.divider,
         Widget.header "Stock Prices", Widget.metricsRow "Stock Prices"]) := by
  refine ⟨fun e => rfl, fun e => rfl, fun e => rfl, fun e => rfl, fun e => rfl,
    fun e => rfl, fun e => rfl, fun e => rfl, fun e => rfl, fun e => rfl,
    fun isPublic l g o h hs t r li ev s se => ⟨_, rfl⟩, fun e => ?_⟩
  simp [summaryPage, summarySection, summarySectionStocks]

/-- C8 counterexample: with the warehouse credentials present but both
Cloudflare sentiment credentials unset, get_client succeeds and
HNCommentsSource.transform returns normally, merely nulling the sentiment
fields — so a missing credential the run needs does not always raise. -/
theorem C8_missing_config_counterexample :
    get_client [("GCP_SA_KEY", "k"), ("GCP_PROJECT_ID", "p")] = Except.ok () ∧
    hnCommentsTransform [("GCP_SA_KEY", "k"), ("GCP_PROJECT_ID", "p")]
        [[("id", Value.int 5), ("text", Value.str "hello world")]] (fun s => s)
        (fun _ => ApiOutcome.exn) =
      Except.ok [[("id", Value.int 5), ("text", Value.str "hello world"),
        ("sentiment_score", Value.null), ("sentiment_label", Value.null),
        ("sentiment_category", Value.null)]] :=
  ⟨rfl, rfl⟩

/-- C8 (amended): a missing warehouse credential aborts the run at once —
get_client raises ValueError when GCP_SA_KEY is unset or empty, and when
GCP_PROJECT_ID is — but not every credential behaves so: with either
Cloudflare credential missing, HNCommentsSource.transform does not raise
and instead returns the rows with null sentiment fields. -/
theorem C8_missing_config_amended :
    (∀ env : EnvMap, envFalsy (envGet env "GCP_SA_KEY") = true →
      get_client env = Except.error "GCP_SA_KEY environment variable is not set") ∧
    (∀ env : EnvMap, envFalsy (envGet env "GCP_SA_KEY") = false →
      envFalsy (envGet env "GCP_PROJECT_ID") = true →
      get_client env = Except.error "GCP_PROJECT_ID environment variable is not set") ∧
    (∀ (env : EnvMap) (raw : List Row) (cleaner : String → String)
        (oracle : Nat → ApiOutcome),
      (envFalsy (envGet env "CLOUDFLARE_ACCOUNT_ID") = true ∨
        envFalsy (envGet env "CLOUDFLARE_WORKERS_AI_TOKEN") = true) →
      hnCommentsTransform env raw cleaner oracle = Except.ok (raw.map nullSentiment)) := by
  refine ⟨?_, ?_, ?_⟩
  · intro env h
    simp [get_client, h]
  · intro env h1 h2
    simp [get_client, h1, h2]
  · intro env raw cleaner oracle h
    rcases h with h | h <;> simp [hnCommentsTransform, h]

/-- Witness for C8 at three concrete environments. -/
theorem C8_missing_config_amended_witness :
    envFalsy (envGet [] "GCP_SA_KEY") = true ∧
    get_client [] = Except.error "GCP_SA_KEY environment variable is not set" ∧
    envFalsy (envGet [("GCP_SA_KEY", "k")] "GCP_SA_KEY") = false ∧
    envFalsy (envGet [("GCP_SA_KEY", "k")] "GCP_PROJECT_ID") = true ∧
    get_client [("GCP_SA_KEY", "k")] =
      Except.error "GCP_PROJECT_ID environment variable is not set" ∧
    envFalsy (envGet [("GCP_SA_KEY", "k"), ("GCP_PROJECT_ID", "p")]
      "CLOUDFLARE_ACCOUNT_ID") = true ∧
    hnCommentsTransform [("GCP_SA_KEY", "k"), ("GCP_PROJECT_ID", "p")]
        [[("text", Value.str "hi")]] (fun s => s) (fun _ => ApiOutcome.exn) =
      Except.ok ([[("text", Value.str "hi")]].map nullSentiment) :=
  ⟨by decide,
   C8_missing_config_amended.1 [] (by decide),
   by decide, by decide,
   C8_missing_config_amended.2.1 [("GCP_SA_KEY", "k")] (by decide) (by decide),
   by decide,
   C8_missing_config_amended.2.2 [("GCP_SA_KEY", "k"), ("GCP_PROJECT_ID", "p")]
     [[("text", Value.str "hi")]] (fun s => s) (fun _ => ApiOutcome.exn)
     (Or.inl (by decide))⟩

/-- C9: with DEPLOYMENT_MODE set to "public" the navigation holds exactly
the Summary page and the public-data pages and neither private page; with
any other value — including unset, which defaults to "local" — it
additionally holds both private pages, Linear Issues and GitHub PRs. -/
theorem C9_nav_config_visibility :
    (∀ env : EnvMap, deploymentMode env = "public" →
      navPages env = "Summary" :: publicPageTitles ∧
      "Linear Issues" ∉ navPages env ∧ "GitHub PRs" ∉ navPages env) ∧
    (∀ env : EnvMap, deploymentMode env ≠ "public" →
      navPages env = "Summary" :: "Linear Issues" :: "GitHub PRs" :: publicPageTitles) ∧
    (∀ env : EnvMap, envGet env "DEPLOYMENT_MODE" = none → deploymentMode env = "local") := by
  refine ⟨?_, ?_, ?_⟩
  · intro env h
    have hnav : navPages env = "Summary" :: publicPageTitles := by
      simp [navPages, nav_config, h]
    refine ⟨hnav, ?_, ?_⟩ <;> rw [hnav] <;> decide
  · intro env h
    simp [navPages, nav_config, privatePageTitles, h]
  · intro env h
    simp [deploymentMode, h]

/-- Witness for C9 at the "public" environment and at the empty (unset)
environment. -/
theorem C9_nav_config_visibility_witness :
    deploymentMode [("DEPLOYMENT_MODE", "public")] = "public" ∧
    (navPages [("DEPLOYMENT_MODE", "public")] = "Summary" :: publicPageTitles ∧
      "Linear Issues" ∉ navPages [("DEPLOYMENT_MODE", "public")] ∧
      "GitHub PRs" ∉ navPages [("DEPLOYMENT_MODE", "public")]) ∧
    deploymentMode ([] : EnvMap) ≠ "public" ∧
    navPages ([] : EnvMap) =
      "Summary" :: "Linear Issues" :: "GitHub PRs" :: publicPageTitles ∧
    envGet ([] : EnvMap) "DEPLOYMENT_MODE" = none ∧
    deploymentMode ([] : EnvMap) = "local" :=
  ⟨by decide,
   C9_nav_config_visibility.1 [("DEPLOYMENT_MODE", "public")] (by decide),
   by decide,
   C9_nav_config_visibility.2.1 [] (by decide),
   by decide,
   C9_nav_config_visibility.2.2 [] (by decide)⟩

/-! ### Sentiment lemmas -/

lemma roundTo4_bound {q : ℚ} (h0 : -1 ≤ q) (h1 : q ≤ 1) :
    -1 ≤ roundTo4 q ∧ roundTo4 q ≤ 1 := by
  have hub : ((round (q * 10000) : ℤ) : ℚ) ≤ q * 10000 + 1/2 :=
    round_le_add_half (q * 10000)
  have hlb : q * 10000 - 1/2 < ((round (q * 10000) : ℤ) : ℚ) :=
    sub_half_lt_round (q * 10000)
  have hubz : round (q * 10000) ≤ 10000 := by
    have hq : ((round (q * 10000) : ℤ) : ℚ) < ((10001 : ℤ) : ℚ) := by
      push_cast
      nlinarith
    have hq2 : round (q * 10000) < 10001 := by exact_mod_cast hq
    omega
  have hlbz : -10000 ≤ round (q * 10000) := by
    have hq : ((-10001 : ℤ) : ℚ) < ((round (q * 10000) : ℤ) : ℚ) := by
      push_cast
      nlinarith
    have hq2 : (-10001 : ℤ) < round (q * 10000) := by exact_mod_cast hq
    omega
  constructor
  · rw [roundTo4, le_div_iff₀ (show (0:ℚ) < 10000 by norm_num)]
    have : ((-10000 : ℤ) : ℚ) ≤ ((round (q * 10000) : ℤ) : ℚ) := by
      exact_mod_cast hlbz
    push_cast at this ⊢
    linarith
  · rw [roundTo4, div_le_one (show (0:ℚ) < 10000 by norm_num)]
    have : ((round (q * 10000) : ℤ) : ℚ) ≤ ((10000 : ℤ) : ℚ) := by
      exact_mod_cast hubz
    push_cast at this ⊢
    linarith

lemma analyzeOne_score_bound (t : String) (o : ApiOutcome)
    (h : ∀ lab sc, o = ApiOutcome.ok lab sc → 0 ≤ sc ∧ sc ≤ 1) :
    -1 ≤ (analyzeOne t o).score ∧ (analyzeOne t o).score ≤ 1 := by
  unfold analyzeOne
  by_cases hlen : t.length < 10
  · rw [if_pos hlen]
    constructor <;> norm_num
  · rw [if_neg hlen]
    cases o with
    | exn => constructor <;> norm_num
    | notSuccess => constructor <;> norm_num
    | ok lab sc =>
      obtain ⟨h0, h1⟩ := h lab sc rfl
      dsimp only
      by_cases hl : (lab == "POSITIVE") = true
      · rw [if_pos hl]
        exact roundTo4_bound (by linarith) h1
      · rw [if_neg hl]
        exact roundTo4_bound (by linarith) (by linarith)

lemma analyzeOne_category_iff (t : String) (o : ApiOutcome) :
    ((analyzeOne t o).category = "positive" ↔ rawScore t o > 1/4) ∧
    ((analyzeOne t o).category = "negative" ↔ rawScore t o < -1/4) ∧
    ((analyzeOne t o).category = "neutral" ↔
      -1/4 ≤ rawScore t o ∧ rawScore t o ≤ 1/4) := by
  unfold analyzeOne rawScore
  by_cases hlen : t.length < 10
  · rw [if_pos hlen, if_pos hlen]
    norm_num
    exact ⟨by decide, by decide⟩
  · rw [if_neg hlen, if_neg hlen]
    cases o with
    | exn =>
      dsimp only
      norm_num
      exact ⟨by decide, by decide⟩
    | notSuccess =>
      dsimp only
      norm_num
      exact ⟨by decide, by decide⟩
    | ok lab sc =>
      dsimp only
      set s := (if (lab == "POSITIVE") = true then sc else -sc) with hs
      by_cases h1 : s > 1/4
      · rw [if_pos h1]
        refine ⟨⟨fun _ => h1, fun _ => rfl⟩, ⟨?_, ?_⟩, ⟨?_, ?_⟩⟩
        · intro hc
          exact absurd hc (by decide)
        · intro hc
          exfalso
          linarith
        · intro hc
          exact absurd hc (by decide)
        · rintro ⟨ha, hb⟩
          exfalso
          linarith
      · rw [if_neg h1]
        by_cases h2 : s < -1/4
        · rw [if_pos h2]
          refine ⟨⟨?_, ?_⟩, ⟨fun _ => h2, fun _ => rfl⟩, ⟨?_, ?_⟩⟩
          · intro hc
            exact absurd hc (by decide)
          · intro hc
            exact absurd hc h1
          · intro hc
            exact absurd hc (by decide)
          · rintro ⟨ha, hb⟩
            exfalso
            have hq : (-1 : ℚ)/4 ≤ s := ha
            linarith
        · rw [if_neg h2]
          push_neg at h1 h2
          refine ⟨⟨?_, ?_⟩, ⟨?_, ?_⟩, ⟨fun _ => ⟨h2, h1⟩, fun _ => rfl⟩⟩
          · intro hc
            exact absurd hc (by decide)
          · intro hc
            exfalso
            linarith
          · intro hc
            exact absurd hc (by decide)
          · intro hc
            exfalso
            linarith

lemma analyzeBatchAux_length (oracle : Nat → ApiOutcome) :
    ∀ (texts : List String) (i : Nat),
      (analyzeBatchAux oracle i texts).length = texts.length := by
  intro texts
  induction texts with
  | nil => intro i; rfl
  | cons t ts ih =>
    intro i
    simp [analyzeBatchAux, ih]

lemma analyzeBatchAux_getElem (oracle : Nat → ApiOutcome) :
    ∀ (texts : List String) (i j : Nat),
      (analyzeBatchAux oracle i texts)[j]? =
        (texts[j]?).map (fun t => analyzeOne t (oracle (i + j))) := by
  intro texts
  induction texts with
  | nil =>
    intro i j
    simp [analyzeBatchAux]
  | cons t ts ih =>
    intro i j
    cases j with
    | zero => simp [analyzeBatchAux]
    | succ j2 =>
      have harith : i + 1 + j2 = i + (j2 + 1) := by omega
      simp only [analyzeBatchAux, List.getElem?_cons_succ]
      rw [ih (i + 1) j2, harith]

lemma mem_analyzeBatchAux (oracle : Nat → ApiOutcome) :
    ∀ (texts : List String) (i : Nat) (r : SentimentRow),
      r ∈ analyzeBatchAux oracle i texts → ∃ t j, r = analyzeOne t (oracle j) := by
  intro texts
  induction texts with
  | nil =>
    intro i r hr
    simp [analyzeBatchAux] at hr
  | cons t ts ih =>
    intro i r hr
    rcases List.mem_cons.1 hr with h | h
    · exact ⟨t, i, h⟩
    · exact ih (i + 1) r h

/-- C10 counterexample: an API confidence of 0.25003 on a POSITIVE label
gives the pre-rounding score 0.25003, so the category is computed as
"positive", but the returned sentiment_score is round(0.25003, 4) = 0.25,
which is not greater than 0.25 — refuting the claim's biconditional that
the category is "positive" iff the returned sentiment_score exceeds
0.25. -/
theorem C10_sentiment_counterexample :
    analyze_sentiment_batch ["this comment is long enough"]
        (fun _ => ApiOutcome.ok "POSITIVE" (25003/100000)) =
      [⟨1/4, "POSITIVE", "positive"⟩] ∧
    ¬ ((1 : ℚ)/4 > 1/4) := by
  constructor
  · show [analyzeOne "this comment is long enough" (ApiOutcome.ok "POSITIVE" (25003/100000))] = _
    have hlen : ¬ ("this comment is long enough".length < 10) := by decide
    have hgt : ((25003 : ℚ)/100000) > 1/4 := by norm_num
    have hr : roundTo4 ((25003 : ℚ)/100000) = 1/4 := by
      rw [roundTo4]
      norm_num [round_eq]
    simp [analyzeOne, hlen, hr, hgt]
    intro hc
    norm_num at hc
  · norm_num

/-- C10 (amended): analyze_sentiment_batch returns one result per input
text, in order, never raising: the j-th result is the handling of the j-th
text against the j-th API outcome; a text shorter than 10 characters
yields score 0 with label NEUTRAL and category neutral, a raising call
yields label ERROR and an unsuccessful response label UNKNOWN, both with
score 0 and category neutral; provided every successful API confidence
lies in [0, 1], every returned sentiment_score lies in [-1, 1]; and the
category is "positive" iff the PRE-ROUNDING score exceeds 0.25,
"negative" iff it is below -0.25, and "neutral" otherwise (the returned
score itself is rounded to 4 decimals and can land exactly on 0.25). -/
theorem C10_sentiment_batch_amended (texts : List String) (oracle : Nat → ApiOutcome)
    (hbound : ∀ i lab sc, oracle i = ApiOutcome.ok lab sc → 0 ≤ sc ∧ sc ≤ 1) :
    (analyze_sentiment_batch texts oracle).length = texts.length ∧
    (∀ (j : Nat) (t : String), texts[j]? = some t →
      (analyze_sentiment_batch texts oracle)[j]? = some (analyzeOne t (oracle j))) ∧
    (∀ (j : Nat) (t : String), texts[j]? = some t → t.length < 10 →
      (analyze_sentiment_batch texts oracle)[j]? =
        some ⟨0, "NEUTRAL", "neutral"⟩) ∧
    (∀ (j : Nat) (t : String), texts[j]? = some t → ¬ t.length < 10 →
      oracle j = ApiOutcome.exn →
      (analyze_sentiment_batch texts oracle)[j]? = some ⟨0, "ERROR", "neutral"⟩) ∧
    (∀ (j : Nat) (t : String), texts[j]? = some t → ¬ t.length < 10 →
      oracle j = ApiOutcome.notSuccess →
      (analyze_sentiment_batch texts oracle)[j]? =
        some ⟨0, "UNKNOWN", "neutral"⟩) ∧
    (∀ r ∈ analyze_sentiment_batch texts oracle, -1 ≤ r.score ∧ r.score ≤ 1) ∧
    (∀ (j : Nat) (t : String), texts[j]? = some t →
      (((analyzeOne t (oracle j)).category = "positive" ↔
          rawScore t (oracle j) > 1/4) ∧
       ((analyzeOne t (oracle j)).category = "negative" ↔
          rawScore t (oracle j) < -1/4) ∧
       ((analyzeOne t (oracle j)).category = "neutral" ↔
          -1/4 ≤ rawScore t (oracle j) ∧ rawScore t (oracle j) ≤ 1/4))) := by
  have hget : ∀ j, (analyze_sentiment_batch texts oracle)[j]? =
      (texts[j]?).map (fun t => analyzeOne t (oracle j)) := by
    intro j
    have h := analyzeBatchAux_getElem oracle texts 0 j
    simpa [analyze_sentiment_batch] using h
  refine ⟨?_, ?_, ?_, ?_, ?_, ?_, ?_⟩
  · exact analyzeBatchAux_length oracle texts 0
  · intro j t ht
    rw [hget j, ht]
    rfl
  · intro j t ht hlen
    rw [hget j, ht]
    simp [analyzeOne, hlen]
  · intro j t ht hlen hexn
    rw [hget j, ht, hexn]
    simp [analyzeOne, hlen]
  · intro j t ht hlen hns
    rw [hget j, ht, hns]
    simp [analyzeOne, hlen]
  · intro r hr
    obtain ⟨t, j, rfl⟩ := mem_analyzeBatchAux oracle texts 0 r hr
    exact analyzeOne_score_bound t (oracle j) (fun lab sc h => hbound j lab sc h)
  · intro j t ht
    exact analyzeOne_category_iff t (oracle j)

/-- Witness for C10 at a two-text batch with a constant POSITIVE
half-confidence oracle. -/
theorem C10_sentiment_batch_amended_witness :
    (analyze_sentiment_batch ["hi", "this text is long enough"]
      (fun _ => ApiOutcome.ok "POSITIVE" (1/2))).length = 2 ∧
    (analyze_sentiment_batch ["hi", "this text is long enough"]
      (fun _ => ApiOutcome.ok "POSITIVE" (1/2)))[0]? =
      some (analyzeOne "hi" (ApiOutcome.ok "POSITIVE" (1/2))) :=
  ⟨(C10_sentiment_batch_amended ["hi", "this text is long enough"]
      (fun _ => ApiOutcome.ok "POSITIVE" (1/2))
      (fun i lab sc h => by
        injection h with h1 h2
        subst h2
        norm_num)).1,
   (C10_sentiment_batch_amended ["hi", "this text is long enough"]
      (fun _ => ApiOutcome.ok "POSITIVE" (1/2))
      (fun i lab sc h => by
        injection h with h1 h2
        subst h2
        norm_num)).2.1 0 "hi" rfl⟩

end Etl
